import Mathlib

/-!
# Verification of the startersZ checkout / payment reconciliation core

Shallow embedding of the two serverless handlers that implement the
payment core of the repository:

* `supabase/functions/process-checkout/index.ts` (the `serve` handler,
  modelled here as `processCheckout`),
* `supabase/functions/paystack-secure/index.ts`, which contains two
  concatenated versions of the function: the first (`initializePayment`
  / `verifyPayment`, modelled as `initializePayment_v1` /
  `verifyPayment_v1`) and the second, tagged `v2025-08-17-fixed`
  (modelled as `authoritativeAmount` / `verifyPayment_v2`).

Conventions of the embedding:

* JS numbers are modelled as `ℚ` (the amounts in play are decimal
  currency values; no floating-point rounding is relevant to the
  claims).  JS truthiness on numbers (`x || d`) is modelled by
  `truthyQ`, on strings by `truthyS`.
* The external world (the Paystack gateway, `Date.now()`,
  `crypto.randomUUID()`, `Math.random()`) is passed in explicitly:
  gateway behaviour is an oracle function, timestamps and random
  suffixes are parameters.
* The database is a `DB` value (lists of order rows and payment
  transaction rows).  Supabase query-builder calls are modelled by
  list operations; `upsert` with `ignoreDuplicates: false` is the
  PostgREST `resolution=merge-duplicates` semantics: on conflict the
  existing row's supplied columns are overwritten with the new payload
  (`ON CONFLICT ... DO UPDATE`).
* Writes to `audit_logs` and `console.log` calls are not modelled;
  no claim mentions them.
-/

namespace StartersZ

/-! ## JS helpers -/

/-- JS `x || d` for an optional number: `undefined`/`null` and `0` are falsy. -/
def truthyQ (x : Option ℚ) (d : ℚ) : ℚ :=
  match x with
  | some v => if v = 0 then d else v
  | none => d

/-- JS `x || d` for an optional string: `undefined`/`null` and `""` are falsy. -/
def truthyS (x : Option String) (d : String) : String :=
  match x with
  | some v => if v = "" then d else v
  | none => d

/-- JS truthiness test for an optional string. -/
def isTruthyS (x : Option String) : Bool :=
  match x with
  | some v => v ≠ ""
  | none => false

/-- JS `a || b` keeping the `Option`: first truthy string, else `b`. -/
def orS (a b : Option String) : Option String :=
  match a with
  | some v => if v = "" then b else some v
  | none => b

/-- Contiguous-sublist (substring) search over character lists. -/
def isSubList (pat : List Char) : List Char → Bool
  | [] => pat.isEmpty
  | c :: rest => pat.isPrefixOf (c :: rest) || isSubList pat rest

/-- Case-sensitive substring test (`String.prototype.includes`). -/
def containsSub (s pat : String) : Bool :=
  isSubList pat.data s.data

/-- Case-insensitive substring test (SQL `ilike '%pat%'`, JS regex with `/i`). -/
def containsCI (s pat : String) : Bool :=
  isSubList (pat.data.map Char.toLower) (s.data.map Char.toLower)

/-- Case-insensitive "starts with" (SQL `ilike 'pat%'`).  Wildcard characters
inside `pat` are not modelled; no reference string in play contains `%`/`_`
used as a wildcard. -/
def startsCI (s pat : String) : Bool :=
  List.isPrefixOf (pat.data.map Char.toLower) (s.data.map Char.toLower)

/-! ## Data model: orders, cart items, payment transactions -/

/-- A cart line item as submitted to checkout.  The handler reads
`item.price || item.unit_price || 0` and `item.quantity || 1`. -/
structure CartItem where
  price : Option ℚ
  unit_price : Option ℚ
  quantity : Option ℚ
  deriving Repr, DecidableEq

/-- `item.price || item.unit_price || 0` -/
def CartItem.itemPrice (it : CartItem) : ℚ :=
  truthyQ it.price (truthyQ it.unit_price 0)

/-- `item.quantity || 1` -/
def CartItem.itemQuantity (it : CartItem) : ℚ :=
  truthyQ it.quantity 1

/-- `items.reduce((sum, item) => sum + itemPrice * itemQuantity, 0)` -/
def cartSubtotal (items : List CartItem) : ℚ :=
  items.foldl (fun sum it => sum + it.itemPrice * it.itemQuantity) 0

/-- Transaction metadata object (the keys the handlers read). -/
structure TxMeta where
  order_id : Option String
  orderId : Option String
  order_number : Option String
  orderNumber : Option String
  client_reference : Option String
  deriving Repr, DecidableEq

def TxMeta.empty : TxMeta :=
  ⟨none, none, none, none, none⟩

/-- A row of the `orders` table (the columns the two handlers touch). -/
structure OrderRow where
  id : String
  reference : Option String
  payment_reference : Option String
  customer_email : String
  customer_name : String
  customer_phone : String
  items : List CartItem
  subtotal : ℚ
  delivery_fee : ℚ
  total_amount : ℚ
  status : String
  payment_status : String
  delivery_method : String
  delivery_location : String
  delivery_address : String
  idempotency_key : String
  order_number : Option String
  payment_url : Option String
  paystack_access_code : Option String
  paid_at : Option String
  created_at : Nat
  updated_at : String
  deriving Repr, DecidableEq

/-- The parsed `data` object of a Paystack verify response. -/
structure GwTx where
  status : Option String
  amount : Option ℚ
  currency : Option String
  channel : Option String
  gateway_response : Option String
  paid_at : Option String
  customer_email : Option String
  metadata : TxMeta
  deriving Repr, DecidableEq

/-- A row of the `payment_transactions` table (union of the columns the
v1 and v2 handlers write; v1 keys rows by `provider_reference`, v2 also
writes a `reference` column). -/
structure TxRow where
  order_id : Option String
  provider_reference : String
  reference : Option String
  transaction_type : Option String
  amount : Option ℚ
  currency : Option String
  status : String
  channel : Option String
  gateway_response : Option String
  paid_at : Option String
  customer_email : Option String
  metadata : TxMeta
  provider_response : Option GwTx
  verified_at : Option String
  created_at : Nat
  updated_at : String
  deriving Repr, DecidableEq

/-- The persistent store shared by all handler invocations. -/
structure DB where
  orders : List OrderRow
  transactions : List TxRow
  deriving Repr, DecidableEq

/-- `.order('created_at', { ascending: false }).maybeSingle()` over the rows
satisfying `p`: the most recently created matching row (the first listed row
among ties).  The PostgREST error raised by `maybeSingle` when several rows
share the greatest `created_at` is not modelled; the states in the theorems
below have unique matches. -/
def dbLatest {α : Type} (created : α → Nat) (p : α → Bool) (l : List α) : Option α :=
  l.foldl
    (fun acc x =>
      if p x then
        match acc with
        | none => some x
        | some y => if created x > created y then some x else some y
      else acc)
    none

/-! ## process-checkout: the checkout handler -/

/-- The `delivery` object of a checkout request body. -/
structure DeliveryData where
  method : Option String
  location : Option String
  address : Option String
  fee : Option ℚ
  deriving Repr, DecidableEq

/-- The `fulfillment` object of a checkout request body. -/
structure FulfillmentData where
  type : Option String
  pickup_point_id : Option String
  address : Option String
  fee : Option ℚ
  deriving Repr, DecidableEq

/-- The `customer` object of a checkout request body. -/
structure CustomerData where
  email : Option String
  name : Option String
  phone : Option String
  deriving Repr, DecidableEq

/-- A checkout request body.  `delivery = none` models an absent or empty
`delivery` object (`Object.keys(delivery).length > 0` is false). -/
structure CheckoutBody where
  items : List CartItem
  customer : CustomerData
  delivery : Option DeliveryData
  fulfillment : FulfillmentData
  total_amount : Option ℚ
  idempotency_key : Option String
  deriving Repr, DecidableEq

/-- Result of the Paystack `transaction/initialize` call, as the handler
reads it (`paystackResponse.ok`, `paystackData.status`,
`paystackData.data.*`). -/
structure InitGw where
  httpOk : Bool
  apiStatus : Bool
  authorization_url : String
  access_code : String
  reference : Option String
  deriving Repr, DecidableEq

/-- What `process-checkout` sends to `transaction/initialize`. -/
structure SentInit where
  email : String
  amount : ℚ
  reference : String
  deriving Repr, DecidableEq

/-- The HTTP response of the checkout handler (the fields the claims
mention), plus the payload sent to the gateway, if any. -/
structure CheckoutResp where
  httpStatus : Nat
  success : Bool
  orderId : Option String
  reference : Option String
  total_amount : Option ℚ
  errorDetails : Option String
  sentToGateway : Option SentInit
  deriving Repr, DecidableEq

/-- Map `fulfillment` to `delivery` for backward compatibility
(process-checkout lines 37–42). -/
def deliveryFromFulfillment (f : FulfillmentData) : DeliveryData :=
  { method := some (if f.type = some "pickup" then "pickup" else "delivery")
    location := some (if isTruthyS f.pickup_point_id then "Pickup Point"
                      else truthyS f.address "Main Store")
    address := some (f.address.getD "")
    fee := some (truthyQ f.fee 0) }

/-- The effective delivery object: the request's `delivery` when non-empty,
else the one derived from `fulfillment`. -/
def checkoutDeliveryData (body : CheckoutBody) : DeliveryData :=
  body.delivery.getD (deliveryFromFulfillment body.fulfillment)

/-- `calculatedTotalAmount` (process-checkout lines 48–62): the
client-submitted total when truthy and positive, else
`sum(items) + deliveryFee`. -/
def checkoutCalculatedTotal (body : CheckoutBody) : ℚ :=
  let subtotal := cartSubtotal body.items
  let deliveryFee := truthyQ (checkoutDeliveryData body).fee 0
  match body.total_amount with
  | some t => if t ≤ 0 then subtotal + deliveryFee else t
  | none => subtotal + deliveryFee

/-- The `orderData` object built by the checkout handler (process-checkout
lines 85–104): a fresh row carrying the freshly generated payment reference,
the submitted items, the validated total (`finalTotal`), and the client key
or a generated `checkout_<timestamp>_<random>` idempotency key. -/
def checkoutOrderData (body : CheckoutBody) (ts : Nat) (rid uuid now : String)
    (nowN : Nat) : OrderRow :=
  let deliveryData := checkoutDeliveryData body
  let paymentReference := "txn_" ++ toString ts ++ "_" ++ rid
  { id := uuid
    reference := some paymentReference
    payment_reference := some paymentReference
    customer_email := body.customer.email.getD ""
    customer_name := truthyS body.customer.name "Guest Customer"
    customer_phone := body.customer.phone.getD ""
    items := body.items
    subtotal := cartSubtotal body.items
    delivery_fee := truthyQ deliveryData.fee 0
    total_amount := checkoutCalculatedTotal body
    status := "pending"
    payment_status := "pending"
    delivery_method := truthyS deliveryData.method "pickup"
    delivery_location := truthyS deliveryData.location "Main Store"
    delivery_address := deliveryData.address.getD ""
    idempotency_key := truthyS body.idempotency_key
      ("checkout_" ++ toString ts ++ "_" ++ rid)
    order_number := none
    payment_url := none
    paystack_access_code := none
    paid_at := none
    created_at := nowN
    updated_at := now }

/-- `supabase.from('orders').upsert(orderData, { onConflict: 'idempotency_key',
ignoreDuplicates: false })`: PostgREST `resolution=merge-duplicates`.  On a
conflicting `idempotency_key` the existing row is updated with **all** the
payload's columns (the payload here supplies every column, so the row is
replaced wholesale, its `id` included); otherwise the row is inserted.
Returns the resulting row (`.select().single()`). -/
def upsertOrderByKey (db : DB) (row : OrderRow) : OrderRow × DB :=
  if db.orders.any (fun o => o.idempotency_key = row.idempotency_key) then
    (row, { db with
            orders := db.orders.map
              (fun o => if o.idempotency_key = row.idempotency_key then row else o) })
  else
    (row, { db with orders := db.orders ++ [row] })

/-- The `serve` handler of `supabase/functions/process-checkout/index.ts`.

Explicit inputs for the ambient nondeterminism: `ts = Date.now()`,
`rid = Math.random().toString(36).substr(2, 9)`,
`uuid = crypto.randomUUID()`, `now = new Date().toISOString()`,
`nowN` the creation instant for row ordering, and `gw` the outcome of the
Paystack initialize call for this request.  Every thrown error is caught by
the handler's single `catch`, which answers HTTP 500. -/
def processCheckout (body : CheckoutBody) (ts : Nat) (rid : String) (uuid : String)
    (now : String) (nowN : Nat) (gw : InitGw) (db : DB) : CheckoutResp × DB :=
  let err : String → Option SentInit → CheckoutResp := fun msg sent =>
    { httpStatus := 500, success := false, orderId := none, reference := none
      total_amount := none, errorDetails := some msg, sentToGateway := sent }
  -- validate required fields (the fulfillment-to-delivery mapping lives in
  -- checkoutDeliveryData / checkoutOrderData)
  if body.items.length = 0 then (err "No items in cart" none, db)
  else if ¬ isTruthyS body.customer.email then (err "Customer email is required" none, db)
  else
    -- calculate total_amount if missing (new structure)
    let calculatedTotalAmount := checkoutCalculatedTotal body
    if calculatedTotalAmount ≤ 0 then
      (err "Invalid total amount - please check your cart items" none, db)
    else
      -- generate consistent payment reference
      let paymentReference := "txn_" ++ toString ts ++ "_" ++ rid
      let orderData := checkoutOrderData body ts rid uuid now nowN
      -- insert order with upsert to handle duplicates
      let upres := upsertOrderByKey db orderData
      let orderResult := upres.1
      let db1 := upres.2
      -- initialize Paystack payment
      let sent : SentInit :=
        { email := body.customer.email.getD ""
          amount := calculatedTotalAmount * 100
          reference := paymentReference }
      if ¬ (gw.httpOk && gw.apiStatus) then
        (err "Paystack error: Payment initialization failed" (some sent), db1)
      else
        -- update order with payment info
        let db2 : DB :=
          { db1 with
            orders := db1.orders.map
              (fun o =>
                if o.id = orderResult.id then
                  { o with
                    payment_reference := some paymentReference
                    payment_url := some gw.authorization_url
                    paystack_access_code := some gw.access_code
                    updated_at := now }
                else o) }
        ({ httpStatus := 200
           success := true
           orderId := some orderResult.id
           reference := some paymentReference
           total_amount := some calculatedTotalAmount
           errorDetails := none
           sentToGateway := some sent }, db2)

/-! ## paystack-secure v1: `initializePayment` -/

/-- The connected row of `payment_integrations` that the v1 handler loads. -/
structure PaystackConfig where
  test_mode : Bool
  secret_key : Option String
  live_secret_key : Option String
  deriving Repr, DecidableEq

/-- `config.test_mode ? config.secret_key : (config.live_secret_key || config.secret_key)` -/
def PaystackConfig.secretKey (c : PaystackConfig) : Option String :=
  if c.test_mode then c.secret_key else orS c.live_secret_key c.secret_key

/-- JS `Math.round`: round half toward `+∞`. -/
def jsRound (q : ℚ) : ℤ := ⌊q + 1 / 2⌋

/-- `x || null` on an optional string: an empty string collapses to `null`. -/
def osNull (x : Option String) : Option String :=
  match x with
  | some v => if v = "" then none else some v
  | none => x

/-- Modelled from the spec: the `payment_transactions` table's uniqueness
constraint on `provider_reference` ("Identity: `provider_reference`
(unique...)", spec §3), whose DDL is not part of `src/`.  A plain
`.insert` of a row whose `provider_reference` already exists fails with a
unique-constraint violation and leaves the table unchanged. -/
def insertTx (db : DB) (row : TxRow) : Option DB :=
  if db.transactions.any (fun t => t.provider_reference = row.provider_reference) then
    none
  else
    some { db with transactions := db.transactions ++ [row] }

/-- The order update of the v1 initialization persistence block
(lines 157–164): when an order was resolved, stamp the returned reference
onto it. -/
def initOrderStamp (db : DB) (orderId : Option String) (returnedRef now : String) :
    DB :=
  match orderId with
  | some oid =>
    { db with
      orders := db.orders.map
        (fun o =>
          if o.id = oid then
            { o with payment_reference := some returnedRef, updated_at := now }
          else o) }
  | none => db

/-- The HTTP response of the v1/v2 `initializePayment`. -/
structure InitResp where
  httpStatus : Nat
  apiStatus : Bool
  reference : Option String
  errorMsg : Option String
  deriving Repr, DecidableEq

/-- v1 `initializePayment` (paystack-secure, first version, lines 56–228).
`ts`/`uuid` feed the server-generated reference, `gw` is the outcome of the
Paystack initialize call, `meta` the parsed request metadata.  In v1 the
incoming `amount` is already in kobo (`Math.round(parseFloat(String(amount)))`,
no `* 100`).  The `audit_logs` insert is not modelled. -/
def initializePayment_v1 (email : Option String) (amount : Option ℚ)
    (client_reference : Option String) (meta : TxMeta)
    (config : Option PaystackConfig) (gw : InitGw)
    (ts : Nat) (uuid : String) (now : String) (nowN : Nat) (db : DB) :
    InitResp × DB :=
  let err : String → InitResp := fun msg =>
    { httpStatus := 500, apiStatus := false, reference := none, errorMsg := some msg }
  if ¬ isTruthyS email ∨ amount = none then
    (err "Email and amount are required", db)
  else
    let amountInKobo := jsRound (amount.getD 0)
    if amountInKobo < 100 then (err "Amount must be >= 100 kobo (₦1.00)", db)
    else
      match config with
      | none => (err "Paystack not configured properly", db)
      | some cfg =>
        if ¬ isTruthyS cfg.secretKey then (err "Paystack secret key not configured", db)
        else
          let transactionRef := "txn_" ++ toString ts ++ "_" ++ uuid
          if ¬ gw.httpOk then (err "Paystack API error", db)
          else if ¬ gw.apiStatus then (err "Failed to initialize payment", db)
          else
            let returnedRef := truthyS gw.reference transactionRef
            -- persistence block (its own try/catch; DB reads/writes are modelled
            -- as non-throwing, the insert conflict is reported via the error value)
            let metaObj :=
              if isTruthyS client_reference ∧ ¬ isTruthyS meta.client_reference then
                { meta with client_reference := client_reference }
              else meta
            let orderId0 := orS metaObj.order_id metaObj.orderId
            let orderNumber := orS metaObj.order_number metaObj.orderNumber
            let orderId :=
              match orderId0 with
              | some oid => some oid
              | none =>
                match orderNumber with
                | some num =>
                  (db.orders.find? (fun o => o.order_number = some num)).map (·.id)
                | none => none
            let db1 := initOrderStamp db orderId returnedRef now
            let txInsert : TxRow :=
              { order_id := orderId
                provider_reference := returnedRef
                reference := none
                transaction_type := none
                amount := some ((amountInKobo : ℚ) / 100)
                currency := some "NGN"
                status := "pending"
                channel := none
                gateway_response := none
                paid_at := none
                customer_email := email
                metadata := metaObj
                provider_response := none
                verified_at := none
                created_at := nowN
                updated_at := now }
            match insertTx db1 txInsert with
            | none =>
              -- criticalInsertError: fail loudly, after the order update stuck
              (err "Failed to record pending transaction", db1)
            | some db2 =>
              ({ httpStatus := 200, apiStatus := true
                 reference := some returnedRef, errorMsg := none }, db2)

/-! ## paystack-secure v2: the amount safety net -/

/-- v2 `initializePayment`'s "safety net" (paystack-secure second version,
lines 746–782): when the metadata carries an `order_id` whose order row is
found, recompute `computedAmount = (total_amount || 0) + (delivery_fee || 0)`
and use it instead of the client-provided amount when they differ by more
than `0.01`; otherwise keep the provided amount.  The corrected amount is
only used for the gateway call — the order row is not updated. -/
def authoritativeAmount (amount : ℚ) (order : Option (Option ℚ × Option ℚ)) : ℚ :=
  match order with
  | none => amount
  | some (total_amount, delivery_fee) =>
    let computedAmount := truthyQ total_amount 0 + truthyQ delivery_fee 0
    if |computedAmount - amount| > 1 / 100 then computedAmount else amount

/-! ## paystack-secure v1: `verifyPayment` retry machinery -/

/-- One gateway answer to `GET /transaction/verify/:ref` (the oracle's view,
indexed by attempt number within one `verifyWithPaystackRetry` call):
a thrown fetch (network error/timeout), a non-200 HTTP response with its
body text, or a 200 with the parsed JSON `{status, data}`. -/
inductive GwVerify where
  | netErr : GwVerify
  | httpErr (status : Nat) (body : String) : GwVerify
  | ok (apiStatus : Bool) (tx : GwTx) : GwVerify
  deriving Repr, DecidableEq

/-- `errorData.includes('Transaction reference not found')` (inside the
retry loop). -/
def innerNotFound (body : String) : Bool :=
  containsSub body "Transaction reference not found"

/-- `/transaction_not_found|not found/i.test(errorText)` (after the retry). -/
def outerNotFound (body : String) : Bool :=
  containsCI body "transaction_not_found" || containsCI body "not found"

/-- What a retry call hands back: a 200 with parsed JSON, or a non-200
response whose body may already have been consumed by the loop's own
`await resp.text()` (a second `.text()` on it throws). -/
inductive RetryResp where
  | ok (apiStatus : Bool) (tx : GwTx) : RetryResp
  | httpErr (status : Nat) (body : String) (bodyConsumed : Bool) : RetryResp
  deriving Repr, DecidableEq

/-- `resp.ok` of the value a retry call handed back. -/
def RetryResp.isOk : RetryResp → Bool
  | .ok _ _ => true
  | .httpErr _ _ _ => false

/-- `resp.status` of the value a retry call handed back. -/
def RetryResp.status : RetryResp → Nat
  | .ok _ _ => 200
  | .httpErr s _ _ => s

deriving instance DecidableEq for Except

/-- Outcome of `verifyWithPaystackRetry`: the returned response or the thrown
error, the references actually fetched from the gateway (one entry per
fetch), and the backoff delays slept (ms). -/
structure RetryOut where
  result : Except String RetryResp
  refsTried : List String
  delays : List Nat
  deriving Repr, DecidableEq

/-- The `for (attempt = 1; attempt <= maxRetries; attempt++)` loop of
`verifyWithPaystackRetry` (paystack-secure v1 lines 282–320): a 200 returns;
a 400 whose body says the reference was not found is retried **with the same
reference** after a `2^attempt * 1000` ms backoff while attempts remain
(its body is consumed by the `includes` check, so a non-matching 400 body
comes back consumed); any other response returns as is; a thrown fetch is
retried with the same backoff and rethrown on the last attempt.  The final
`fuel` argument makes the recursion structural; the loop is entered with
`fuel = maxRetries`, one unit per remaining attempt. -/
def retryAux (gw : String → Nat → GwVerify) (ref : String) (maxRetries attempt : Nat) :
    Nat → RetryOut
  | 0 =>
    -- the loop ran out of attempts (`attempt > maxRetries`)
    { result := .error "All verification attempts failed", refsTried := [], delays := [] }
  | fuel + 1 =>
    match gw ref attempt with
    | .ok apiStatus tx =>
      { result := .ok (.ok apiStatus tx), refsTried := [ref], delays := [] }
    | .httpErr s body =>
      if s = 400 ∧ attempt < maxRetries then
        if innerNotFound body then
          let rest := retryAux gw ref maxRetries (attempt + 1) fuel
          { result := rest.result, refsTried := ref :: rest.refsTried
            delays := 2 ^ attempt * 1000 :: rest.delays }
        else
          { result := .ok (.httpErr s body true), refsTried := [ref], delays := [] }
      else
        { result := .ok (.httpErr s body false), refsTried := [ref], delays := [] }
    | .netErr =>
      if attempt = maxRetries then
        { result := .error "fetch failed", refsTried := [ref], delays := [] }
      else
        let rest := retryAux gw ref maxRetries (attempt + 1) fuel
        { result := rest.result, refsTried := ref :: rest.refsTried
          delays := 2 ^ attempt * 1000 :: rest.delays }

/-- `verifyWithPaystackRetry(ref, maxRetries)`: `validateReference` throws on
an empty or short (< 10 chars) reference before any fetch, then the attempt
loop runs. -/
def verifyWithPaystackRetry (gw : String → Nat → GwVerify) (ref : String)
    (maxRetries : Nat) : RetryOut :=
  if ref = "" then
    { result := .error "Invalid reference format: must be a non-empty string"
      refsTried := [], delays := [] }
  else if ref.length < 10 then
    { result := .error "Invalid reference format: too short", refsTried := [], delays := [] }
  else retryAux gw ref maxRetries 1 maxRetries

/-- `verifyWithPaystack(ref)`: a single attempt, used by the resolution
cascade. -/
def verifyWithPaystack (gw : String → Nat → GwVerify) (ref : String) : RetryOut :=
  verifyWithPaystackRetry gw ref 1

/-! ## paystack-secure v1: `verifyPayment` reference resolution -/

/-- `/^(pay|PAY|Pay)[-_]/.test(reference)` -/
def hasPayPfx (s : String) : Bool :=
  ["pay_", "pay-", "PAY_", "PAY-", "Pay_", "Pay-"].any
    (fun p => List.isPrefixOf p.data s.data)

/-- `/^txn_/.test(reference)` -/
def hasTxnPfx (s : String) : Bool :=
  List.isPrefixOf "txn_".data s.data

/-- The mutable locals of the resolution phase: the latest (non-thrown)
gateway response, `effectiveRef`, `mappingStrategy`, and the log of
references fetched so far. -/
structure Reso where
  resp : RetryResp
  effectiveRef : String
  strategy : Option String
  trace : List String
  deriving Repr, DecidableEq

/-- `paystackResponse = await verifyWithPaystack(ref)` inside a resolution
block: on a throw (`true` flag) the response keeps its previous value and
the enclosing block is aborted; the fetched references are logged either
way. -/
def cascadeCall (gw : String → Nat → GwVerify) (ref : String) (st : Reso) :
    Reso × Bool :=
  let r := verifyWithPaystack gw ref
  let st' := { st with trace := st.trace ++ r.refsTried }
  match r.result with
  | .error _ => (st', true)
  | .ok resp => ({ st' with resp := resp }, false)

/-- Resolution block A (paystack-secure v1 lines 336–383), entered only for
`pay`-prefixed references the gateway did not find: map the client
provisional reference to a server reference via the transaction ledger's
`metadata.client_reference`, else fall back to the hint `order_id` (ledger
row first, then the order row's `payment_reference`).  Each successful
mapping re-attempts the gateway lookup; a throw is swallowed by the block's
`catch`. -/
def stageA (gw : String → Nat → GwVerify) (db : DB) (hint : Option String)
    (reference : String) (st : Reso) : Reso :=
  let mappedRef : Option String :=
    match dbLatest (·.created_at)
        (fun t => t.metadata.client_reference == some reference) db.transactions with
    | some m => if m.provider_reference ≠ "" then some m.provider_reference else none
    | none => none
  match mappedRef with
  | some mr =>
    let st := { st with effectiveRef := mr, strategy := some "client_metadata" }
    (cascadeCall gw mr st).1
  | none =>
    match osNull hint with
    | none => st
    | some oid =>
      let byOrderRef : Option String :=
        match dbLatest (·.created_at) (fun t => t.order_id == some oid) db.transactions with
        | some b => if b.provider_reference ≠ "" then some b.provider_reference else none
        | none => none
      match byOrderRef with
      | some br =>
        let st := { st with effectiveRef := br, strategy := some "by_order_id" }
        (cascadeCall gw br st).1
      | none =>
        match db.orders.find? (fun o => o.id == oid) with
        | none => st
        | some orow =>
          match osNull orow.payment_reference with
          | none => st
          | some pr =>
            let st := { st with effectiveRef := pr, strategy := some "orders_payment_reference" }
            (cascadeCall gw pr st).1

/-- Resolution block B (paystack-secure v1 lines 388–483), entered when the
gateway said "not found" and no earlier mapping produced a hit: (0) the
`txn_`-prefixed variant of the supplied reference, (1) ledger
`provider_reference` prefix match, (2) orders `payment_reference` prefix
match, (3) ledger substring match, (4) orders substring match — each gated
on the response still not being ok, a throw aborting the rest of the block
(one shared `catch`). -/
def stageB0 (gw : String → Nat → GwVerify) (reference : String) (st : Reso) :
    Reso × Bool :=
  if ¬ hasTxnPfx reference then
    let prefixed := "txn_" ++ reference
    let st := { st with strategy := some "prefix_added" }
    let (st, ab) := cascadeCall gw prefixed st
    if ab then (st, true)
    else (if st.resp.isOk then { st with effectiveRef := prefixed } else st, false)
  else (st, false)

/-- One DB-candidate step of resolution block B: skipped after an abort or
once the response is ok; otherwise, when the lookup produced a candidate
reference, record it as `effectiveRef`/`mappingStrategy` and re-attempt the
gateway lookup. -/
def stageBLookup (gw : String → Nat → GwVerify) (cand : Option String)
    (strat : String) : Reso × Bool → Reso × Bool :=
  fun stAb =>
    if stAb.2 then stAb
    else if stAb.1.resp.isOk then (stAb.1, false)
    else
      match cand with
      | none => (stAb.1, false)
      | some mref =>
        let st := { stAb.1 with effectiveRef := mref, strategy := some strat }
        cascadeCall gw mref st

/-- Resolution block B (paystack-secure v1 lines 388–483), entered when the
gateway said "not found" and no earlier mapping produced a hit: (0) the
`txn_`-prefixed variant of the supplied reference, (1) ledger
`provider_reference` prefix match, (2) orders `payment_reference` prefix
match, (3) ledger substring match, (4) orders substring match — each gated
on the response still not being ok, a throw aborting the rest of the block
(one shared `catch`). -/
def stageB (gw : String → Nat → GwVerify) (db : DB) (reference : String)
    (st : Reso) : Reso :=
  let tryPfxs : List String :=
    [reference, if hasTxnPfx reference then reference else "txn_" ++ reference]
  let cand1 : Option String :=
    tryPfxs.findSome? (fun p =>
      (dbLatest (·.created_at)
        (fun t => startsCI t.provider_reference p) db.transactions).bind
        (fun b => if b.provider_reference ≠ "" then some b.provider_reference else none))
  let cand2 : Option String :=
    tryPfxs.findSome? (fun p =>
      (dbLatest (·.created_at)
        (fun o => match o.payment_reference with
                  | some pr => startsCI pr p
                  | none => false) db.orders).bind
        (fun o => osNull o.payment_reference))
  let cand3 : Option String :=
    (dbLatest (·.created_at)
      (fun t => containsCI t.provider_reference reference) db.transactions).bind
      (fun b => if b.provider_reference ≠ "" then some b.provider_reference else none)
  let cand4 : Option String :=
    (dbLatest (·.created_at)
      (fun o => match o.payment_reference with
                | some pr => containsCI pr reference
                | none => false) db.orders).bind
      (fun o => osNull o.payment_reference)
  (stageBLookup gw cand4 "orders_contains_match"
    (stageBLookup gw cand3 "tx_contains_match"
      (stageBLookup gw cand2 "orders_prefix_match"
        (stageBLookup gw cand1 "tx_prefix_match"
          (stageB0 gw reference st))))).1

/-! ## paystack-secure v1: finalization -/

/-- Modelled from the spec: the database function `handle_successful_payment`
(invoked by v1 `verifyPayment` through `supabaseClient.rpc`; its SQL body is
not part of `src/`).  Per spec §4.5 step 4 / §5: on a successful settlement
it resolves the order carrying the reference and transitions
`payment_status` to `paid` and `status` to `confirmed`, gating the
transition on "is it already paid" so re-verification of an already-paid
order is a no-op; it reports the resolved order's id. -/
def handle_successful_payment (ref : String) (success : Bool) (db : DB) :
    DB × Option String :=
  if ¬ success then (db, none)
  else
    match db.orders.find? (fun o => o.payment_reference == some ref) with
    | none => (db, none)
    | some o =>
      if o.payment_status = "paid" then (db, some o.id)
      else
        ({ db with
           orders := db.orders.map
             (fun x =>
               if x.id = o.id then
                 { x with payment_status := "paid", status := "confirmed" }
               else x) }, some o.id)

/-- Finalization of v1 `verifyPayment` (lines 512–645): resolve the order
(metadata `order_id` → reference/id match → order-number match), upsert the
Payment Transaction row keyed on `provider_reference` with the gateway's
final status (`paid` on success, else the gateway status or `failed`), run
`handle_successful_payment`, stamp the order's `payment_reference`, and read
back the order joined through the ledger row.  The `upsertError` fallback
insert/update sequence (lines 565–580) has the same effect as the upsert and
is folded into it; the `audit_logs` insert is not modelled. -/
def finalizeVerify (tx : GwTx) (effRef : String) (now : String) (nowN : Nat)
    (db : DB) : Option OrderRow × DB :=
  let orderId0 := osNull (orS tx.metadata.order_id tx.metadata.orderId)
  let orderNumber := osNull (orS tx.metadata.order_number tx.metadata.orderNumber)
  let orderId1 : Option String :=
    match orderId0 with
    | some _ => orderId0
    | none =>
      (db.orders.find?
        (fun (o : OrderRow) =>
          decide (o.payment_reference = some effRef ∨ o.id = effRef))).map
        (fun o => o.id)
  let orderId2 : Option String :=
    match orderId1 with
    | some _ => orderId1
    | none =>
      match orderNumber with
      | some num =>
        (db.orders.find? (fun (o : OrderRow) => o.order_number == some num)).map
          (fun o => o.id)
      | none => none
  let isSuccess := tx.status == some "success"
  let statusStr := if isSuccess then "paid" else truthyS tx.status "failed"
  let amt : Option ℚ := tx.amount.map (fun a => a / 100)
  let curr := truthyS tx.currency "NGN"
  let chan := truthyS tx.channel "online"
  let gwr := osNull tx.gateway_response
  let paidAt := truthyS tx.paid_at now
  let custEmail := osNull tx.customer_email
  let db1 :=
    if db.transactions.any (fun t => t.provider_reference = effRef) then
      { db with
        transactions := db.transactions.map
          (fun t =>
            if t.provider_reference = effRef then
              { t with
                transaction_type := some "charge"
                status := statusStr
                amount := amt
                currency := some curr
                channel := some chan
                gateway_response := gwr
                paid_at := some paidAt
                customer_email := custEmail
                provider_response := some tx
                updated_at := now
                order_id := match orderId2 with
                            | some oid => some oid
                            | none => t.order_id }
            else t) }
    else
      { db with
        transactions := db.transactions ++
          [{ order_id := orderId2
             provider_reference := effRef
             reference := none
             transaction_type := some "charge"
             amount := amt
             currency := some curr
             status := statusStr
             channel := some chan
             gateway_response := gwr
             paid_at := some paidAt
             customer_email := custEmail
             metadata := TxMeta.empty
             provider_response := some tx
             verified_at := none
             created_at := nowN
             updated_at := now }] }
  let rpc := handle_successful_payment effRef isSuccess db1
  let db2 := rpc.1
  let orderId3 :=
    match rpc.2 with
    | some oid => some oid
    | none => orderId2
  let db3 :=
    match orderId3 with
    | some oid =>
      { db2 with
        orders := db2.orders.map
          (fun o =>
            if o.id = oid then
              { o with payment_reference := some effRef, updated_at := now }
            else o) }
    | none => db2
  let orderInfo : Option OrderRow :=
    (db3.transactions.find? (fun t => t.provider_reference = effRef)).bind
      (fun t => t.order_id.bind (fun oid => db3.orders.find? (fun o => o.id = oid)))
  (orderInfo, db3)

/-! ## paystack-secure v1: `verifyPayment` -/

/-- The diagnostics payload of the non-fatal "could not verify" response
(paystack-secure v1 lines 488–502). -/
structure Diagnostics where
  provided_reference : String
  effective_reference : String
  mapping_strategy : Option String
  provider_status : Nat
  deriving Repr, DecidableEq

/-- The HTTP response of `verifyPayment` (fields the claims mention):
`apiStatus` is the JSON body's `status` flag, `dataStatus` the gateway's
settlement status, the `dataOrder*` fields the joined order summary. -/
structure VerifyOutcome where
  httpStatus : Nat
  apiStatus : Bool
  errorMsg : Option String
  dataStatus : Option String
  dataOrderId : Option String
  dataOrderStatus : Option String
  dataPaymentStatus : Option String
  diagnostics : Option Diagnostics
  deriving Repr, DecidableEq

/-- The whole resolution phase of v1 `verifyPayment`: block A only for
not-found `pay`-prefixed references, then block B while the response is
still not ok. -/
def resolvePhase (gw : String → Nat → GwVerify) (db : DB) (hint : Option String)
    (ref body : String) (st0 : Reso) : Reso :=
  let notFound := outerNotFound body
  let st1 := if notFound ∧ hasPayPfx ref then stageA gw db (osNull hint) ref st0 else st0
  if notFound ∧ ¬ st1.resp.isOk then stageB gw db ref st1 else st1

/-- v1 `verifyPayment` (paystack-secure, first version, lines 230–675).
Returns the HTTP outcome, the updated store, and the trace of references
fetched from the gateway (in order).  Thrown errors not caught by an inner
`catch` are answered with HTTP 500 by the outer handler. -/
def verifyPayment_v1 (gw : String → Nat → GwVerify) (config : Option PaystackConfig)
    (reference hint : Option String) (now : String) (nowN : Nat) (db : DB) :
    VerifyOutcome × DB × List String :=
  let err : String → VerifyOutcome := fun msg =>
    { httpStatus := 500, apiStatus := false, errorMsg := some msg
      dataStatus := none, dataOrderId := none, dataOrderStatus := none
      dataPaymentStatus := none, diagnostics := none }
  match osNull reference with
  | none => (err "Payment reference is required", db, [])
  | some ref =>
    match config with
    | none => (err "Paystack not configured properly", db, [])
    | some cfg =>
      if ¬ isTruthyS cfg.secretKey then (err "Paystack secret key not configured", db, [])
      else
        let r1 := verifyWithPaystackRetry gw ref 3
        match r1.result with
        | .error e => (err e, db, r1.refsTried)
        | .ok resp0 =>
          let st0 : Reso := ⟨resp0, ref, none, r1.refsTried⟩
          let afterReso : Except String Reso :=
            match resp0 with
            | .ok _ _ => .ok st0
            | .httpErr _ body consumed =>
              if consumed then .error "Body already consumed"
              else .ok (resolvePhase gw db hint ref body st0)
          match afterReso with
          | .error e => (err e, db, st0.trace)
          | .ok st =>
            match st.resp with
            | .httpErr s _ _ =>
              ({ httpStatus := 200
                 apiStatus := false
                 errorMsg := some ("Paystack verification failed (" ++ toString s ++ ")")
                 dataStatus := none, dataOrderId := none, dataOrderStatus := none
                 dataPaymentStatus := none
                 diagnostics := some
                   { provided_reference := ref
                     effective_reference := st.effectiveRef
                     mapping_strategy := st.strategy
                     provider_status := s } }, db, st.trace)
            | .ok apiStatus tx =>
              if ¬ apiStatus then (err "Failed to verify payment", db, st.trace)
              else
                let fin := finalizeVerify tx st.effectiveRef now nowN db
                ({ httpStatus := 200
                   apiStatus := true
                   errorMsg := none
                   dataStatus := tx.status
                   dataOrderId := fin.1.map (·.id)
                   dataOrderStatus := fin.1.map (·.status)
                   dataPaymentStatus := fin.1.map (·.payment_status)
                   diagnostics := none }, fin.2, st.trace)

/-! ## paystack-secure v2: `verifyPayment` -/

/-- v2 `verifyPayment` (paystack-secure, `v2025-08-17-fixed`, lines 952–1067):
a single direct gateway lookup (no resolution cascade, no retry); a non-200
or unsuccessful response is rethrown and answered 500.  On gateway status
`success` it sets the ledger row(s) matching the `reference` column to
`completed` and the order(s) whose `payment_reference` equals the supplied
reference to `status = 'confirmed'` with a fresh `paid_at` —
`payment_status` is not touched.  It then answers 200 with the gateway
payload. -/
def verifyPayment_v2 (gw : String → Nat → GwVerify) (secretKeyOk : Bool)
    (reference : Option String) (now : String) (db : DB) :
    VerifyOutcome × DB :=
  let err : String → VerifyOutcome := fun msg =>
    { httpStatus := 500, apiStatus := false, errorMsg := some msg
      dataStatus := none, dataOrderId := none, dataOrderStatus := none
      dataPaymentStatus := none, diagnostics := none }
  match osNull reference with
  | none => (err "Payment reference is required", db)
  | some ref =>
    if ¬ secretKeyOk then (err "Paystack secret key not configured", db)
    else
      match gw ref 1 with
      | .netErr => (err "fetch failed", db)
      | .httpErr s _ =>
        (err ("Paystack verification failed (" ++ toString s ++ ")"), db)
      | .ok apiStatus tx =>
        if ¬ apiStatus then (err "Failed to verify payment", db)
        else
          let db' :=
            if tx.status == some "success" then
              { orders := db.orders.map
                  (fun o =>
                    if o.payment_reference = some ref then
                      { o with status := "confirmed", paid_at := some now
                               updated_at := now }
                    else o)
                transactions := db.transactions.map
                  (fun t =>
                    if t.reference = some ref then
                      { t with status := "completed", verified_at := some now
                               updated_at := now }
                    else t) }
            else db
          ({ httpStatus := 200
             apiStatus := true
             errorMsg := none
             dataStatus := tx.status
             dataOrderId := none, dataOrderStatus := none, dataPaymentStatus := none
             diagnostics := none }, db')

/-! ## Concrete fixtures used by the claim theorems -/

/-- Spec §8 scenario cart: unit prices 1000 and 500, quantities 2 and 1. -/
def sampleItems : List CartItem :=
  [⟨some 1000, none, some 2⟩, ⟨some 500, none, some 1⟩]

/-- Checkout body for the spec §8 amount scenario: delivery fee 300,
client-submitted total 2000. -/
def scenarioBody : CheckoutBody :=
  { items := sampleItems
    customer := ⟨some "a@b.c", some "Alice", none⟩
    delivery := none
    fulfillment := ⟨some "delivery", none, some "12 Road", some 300⟩
    total_amount := some 2000
    idempotency_key := some "K1" }

/-- A gateway that accepts the initialize call. -/
def gwInitOk : InitGw := ⟨true, true, "https://pay.example", "AC1", none⟩

/-- An order already persisted for idempotency key `K1`. -/
def orderAlice : OrderRow :=
  { id := "ord1", reference := none, payment_reference := some "txn_old_ref1"
    customer_email := "a@b.c", customer_name := "Alice", customer_phone := ""
    items := sampleItems, subtotal := 2500, delivery_fee := 300, total_amount := 2800
    status := "pending", payment_status := "pending"
    delivery_method := "delivery", delivery_location := "L", delivery_address := "A"
    idempotency_key := "K1", order_number := some "ORD-1", payment_url := none
    paystack_access_code := none, paid_at := none, created_at := 1, updated_at := "t-1" }

/-- A second submission reusing idempotency key `K1` with a different
customer name and total. -/
def bodyBob : CheckoutBody :=
  { scenarioBody with customer := ⟨some "a@b.c", some "Bob", none⟩ }

/-- A checkout body whose cart is empty (validation failure input). -/
def emptyCartBody : CheckoutBody := { scenarioBody with items := [] }

/-- The scenario body with the idempotency key omitted. -/
def bodyNoKey : CheckoutBody := { scenarioBody with idempotency_key := none }

/-- A gateway on which every verify lookup answers
400 "Transaction reference not found". -/
def gwVerifyNotFound : String → Nat → GwVerify :=
  fun _ _ => .httpErr 400 "Transaction reference not found"

/-- A gateway on which every verify fetch throws (network error). -/
def gwVerifyNetErr : String → Nat → GwVerify := fun _ _ => .netErr

/-- A connected Paystack configuration with a test secret key. -/
def cfgTest : PaystackConfig := ⟨true, some "sk_test_x", none⟩

/-- Order used by the C6 counterexample: its stored canonical reference is
`txn_real_12345` and its id can be supplied as a verification hint. -/
def orderWithHint : OrderRow :=
  { orderAlice with id := "oid12345", payment_reference := some "txn_real_12345"
                    idempotency_key := "K9" }

/-- Ledger row for the canonical reference `txn_real_12345`. -/
def txLedgerReal : TxRow :=
  { order_id := some "oid12345", provider_reference := "txn_real_12345"
    reference := none, transaction_type := none, amount := some 28
    currency := some "NGN", status := "pending", channel := none
    gateway_response := none, paid_at := none, customer_email := some "a@b.c"
    metadata := TxMeta.empty, provider_response := none, verified_at := none
    created_at := 2, updated_at := "t-1" }

/-- Gateway payload of a settled transaction with no metadata. -/
def gwTxSuccess : GwTx :=
  ⟨some "success", some 280000, some "NGN", some "card", none, some "2025-01-01",
   some "a@b.c", TxMeta.empty⟩

/-- C6 oracle: only the canonical reference `txn_real_12345` is known to the
gateway; everything else is 400 "Transaction reference not found". -/
def gwOracleC6 : String → Nat → GwVerify := fun r _ =>
  if r = "txn_real_12345" then .ok true gwTxSuccess
  else .httpErr 400 "Transaction reference not found"

/-- Oracle for the C6 witness: only the prefixed variant
`txn_order12345678` is known to the gateway. -/
def gwOraclePrefixed : String → Nat → GwVerify := fun r _ =>
  if r = "txn_order12345678" then .ok true gwTxSuccess
  else .httpErr 400 "Transaction reference not found"

/-- A gateway on which every reference verifies as settled. -/
def gwVerifySuccess : String → Nat → GwVerify := fun _ _ => .ok true gwTxSuccess

/-- A gateway on which every lookup reports the transaction as still
`pending`. -/
def gwVerifyPending : String → Nat → GwVerify :=
  fun _ _ => .ok true ⟨some "pending", some 280000, some "NGN", none, none, none, none,
                       TxMeta.empty⟩

/-- An already-settled ledger row (`status = paid`). -/
def txPaidRow : TxRow :=
  { txLedgerReal with provider_reference := "txn_paid_12345", status := "paid"
                      order_id := none }

/-! ## Helper lemmas -/

theorem upsertOrderByKey_fst (db : DB) (row : OrderRow) :
    (upsertOrderByKey db row).1 = row := by
  unfold upsertOrderByKey; split <;> rfl

theorem upsertOrderByKey_transactions (db : DB) (row : OrderRow) :
    ((upsertOrderByKey db row).2).transactions = db.transactions := by
  unfold upsertOrderByKey; split <;> rfl

theorem upsertOrderByKey_mem (db : DB) (row : OrderRow) :
    row ∈ ((upsertOrderByKey db row).2).orders := by
  unfold upsertOrderByKey
  split
  · rename_i h
    obtain ⟨x, hx, hkey⟩ := List.any_eq_true.mp h
    have hk : x.idempotency_key = row.idempotency_key := of_decide_eq_true hkey
    exact List.mem_map.mpr ⟨x, hx, by simp [hk]⟩
  · simp

theorem upsertOrderByKey_fresh (db : DB) (row : OrderRow)
    (h : ∀ o ∈ db.orders, o.idempotency_key ≠ row.idempotency_key) :
    ((upsertOrderByKey db row).2).orders = db.orders ++ [row] := by
  have hcond :
      ¬ (db.orders.any fun o => decide (o.idempotency_key = row.idempotency_key)) = true := by
    simp only [List.any_eq_true, decide_eq_true_eq, not_exists, not_and]
    exact h
  unfold upsertOrderByKey
  rw [if_neg hcond]

/-- Distinct same-length random suffixes give distinct generated keys. -/
theorem genKey_ne (ts1 ts2 : Nat) (rid1 rid2 : String)
    (hlen : rid1.length = rid2.length) (hne : rid1 ≠ rid2) :
    ("checkout_" ++ toString ts1 ++ "_" ++ rid1) ≠
      ("checkout_" ++ toString ts2 ++ "_" ++ rid2) := by
  intro h
  apply hne
  have hd := congrArg String.data h
  simp only [String.data_append] at hd
  have hlen' : rid1.data.length = rid2.data.length := hlen
  exact String.ext (List.append_inj' hd hlen').2

/-- The success path of the checkout handler, in closed form: with a
non-empty cart, a truthy customer email, a positive validated total and a
gateway that accepts the initialize call, the handler answers 200 with the
fresh reference and the validated total, and the final store is the
upserted row set with the payment info stamped onto the row whose id is the
fresh UUID. -/
theorem processCheckout_success (body : CheckoutBody) (ts : Nat)
    (rid uuid now : String) (nowN : Nat) (gw : InitGw) (db : DB)
    (hItems : body.items.length ≠ 0)
    (hEmail : isTruthyS body.customer.email = true)
    (hTotal : 0 < checkoutCalculatedTotal body)
    (hgw : gw.httpOk = true) (hgw' : gw.apiStatus = true) :
    processCheckout body ts rid uuid now nowN gw db =
      ({ httpStatus := 200, success := true
         orderId := some uuid
         reference := some ("txn_" ++ toString ts ++ "_" ++ rid)
         total_amount := some (checkoutCalculatedTotal body)
         errorDetails := none
         sentToGateway := some
           { email := body.customer.email.getD ""
             amount := checkoutCalculatedTotal body * 100
             reference := "txn_" ++ toString ts ++ "_" ++ rid } },
       { orders :=
           ((upsertOrderByKey db (checkoutOrderData body ts rid uuid now nowN)).2).orders.map
             (fun o =>
               if o.id = uuid then
                 { o with payment_reference := some ("txn_" ++ toString ts ++ "_" ++ rid)
                          payment_url := some gw.authorization_url
                          paystack_access_code := some gw.access_code
                          updated_at := now }
               else o)
         transactions := db.transactions }) := by
  have h2 : ¬ (checkoutCalculatedTotal body ≤ 0) := not_le.mpr hTotal
  simp only [processCheckout, hItems, hEmail, h2, hgw, hgw', if_neg, if_false,
    Bool.and_self, Bool.not_true, not_false_eq_true, if_true, ite_false, ite_true,
    upsertOrderByKey_fst, upsertOrderByKey_transactions, checkoutOrderData]
  rfl

/-! ## Claim theorems -/

/-- C1: the claim states that a checkout request reusing an existing
`idempotency_key` returns the existing order id with its fields (customer
name, items, amounts) unchanged.  Evaluating the handler at the failing
input shows the opposite: the `upsert` with `ignoreDuplicates: false`
(merge-duplicates) overwrites the stored order's fields — customer name
`Alice` becomes `Bob`, the total becomes the new submission's 2000, the
row id becomes the new request's UUID — and the response carries the new
id, not `ord1`.  Only the at-most-one-row-per-key part holds. -/
theorem C1_duplicate_checkout_overwrites_existing_order :
    (processCheckout bodyBob 200 "r2abcdefg" "uuid-2" "t1" 6 gwInitOk
        ⟨[orderAlice], []⟩).1.orderId = some "uuid-2" ∧
    orderAlice.id ≠ "uuid-2" ∧
    orderAlice.customer_name = "Alice" ∧ orderAlice.total_amount = 2800 ∧
    (processCheckout bodyBob 200 "r2abcdefg" "uuid-2" "t1" 6 gwInitOk
        ⟨[orderAlice], []⟩).2.orders.map
      (fun o => (o.id, o.customer_name, o.idempotency_key)) =
      [("uuid-2", "Bob", "K1")] ∧
    (processCheckout bodyBob 200 "r2abcdefg" "uuid-2" "t1" 6 gwInitOk
        ⟨[orderAlice], []⟩).2.orders.map (fun o => o.total_amount) = [2000] := by
  exact ⟨by decide, by decide, by decide, by decide, by decide, by decide⟩

/-- C2 counterexample: the order for key `K1` already carries
`payment_reference = txn_old_ref1`, yet re-running checkout mints the fresh
reference `txn_200_r2abcdefg`, sends it to the gateway, and overwrites the
stored reference with it — the claim's "returns that same payment_reference
unchanged (no new reference is minted or sent to the gateway)" is false on
this input. -/
theorem C2_counterexample :
    orderAlice.payment_reference = some "txn_old_ref1" ∧
    orderAlice.idempotency_key = "K1" ∧ bodyBob.idempotency_key = some "K1" ∧
    ((processCheckout bodyBob 200 "r2abcdefg" "uuid-2" "t1" 6 gwInitOk
        ⟨[orderAlice], []⟩).1.sentToGateway.map (fun s => s.reference)) =
      some "txn_200_r2abcdefg" ∧
    "txn_200_r2abcdefg" ≠ "txn_old_ref1" ∧
    (processCheckout bodyBob 200 "r2abcdefg" "uuid-2" "t1" 6 gwInitOk
        ⟨[orderAlice], []⟩).2.orders.map (fun o => o.payment_reference) =
      [some "txn_200_r2abcdefg"] := by
  exact ⟨by decide, by decide, by decide, by decide, by decide, by decide⟩

/-- C3 counterexample: the spec §8 scenario (items 2×1000 + 1×500, fee 300,
client-submitted total 2000).  The claim requires the persisted total to be
corrected to the recomputed sum before the gateway call; the handler instead
trusts the positive client total: it persists 2000 (≠ 2500 and ≠ the
sum-plus-fee 2800) and initializes the gateway with 2000·100 = 200000 minor
units, not 250000. -/
theorem C3_counterexample :
    cartSubtotal scenarioBody.items = 2500 ∧
    truthyQ (checkoutDeliveryData scenarioBody).fee 0 = 300 ∧
    scenarioBody.total_amount = some 2000 ∧
    (processCheckout scenarioBody 100 "r1abcdefg" "uuid-1" "t0" 5 gwInitOk
        ⟨[], []⟩).2.orders.map (fun o => o.total_amount) = [2000] ∧
    ((processCheckout scenarioBody 100 "r1abcdefg" "uuid-1" "t0" 5 gwInitOk
        ⟨[], []⟩).1.sentToGateway.map (fun s => s.amount)) = some (2000 * 100) ∧
    (2000 : ℚ) * 100 = 200000 ∧
    (2000 : ℚ) ≠ 2500 ∧ (2000 : ℚ) ≠ 2800 ∧ (200000 : ℚ) ≠ 250000 := by
  refine ⟨?_, by decide, by decide, by decide, rfl, by norm_num,
    by decide, by decide, by decide⟩
  norm_num [cartSubtotal, scenarioBody, sampleItems, CartItem.itemPrice,
    CartItem.itemQuantity, truthyQ]

/-- C2 amended: `process-checkout` mints a fresh `txn_<timestamp>_<random>`
reference on every call and sends it to the gateway; after a successful
gateway call the UUID row carries the fresh reference — it never returns a
previously stored `payment_reference`. -/
theorem C2_amended_fresh_reference_every_call (body : CheckoutBody) (ts : Nat)
    (rid uuid now : String) (nowN : Nat) (gw : InitGw) (db : DB)
    (hItems : body.items.length ≠ 0)
    (hEmail : isTruthyS body.customer.email = true)
    (hTotal : 0 < checkoutCalculatedTotal body)
    (hgw : gw.httpOk = true) (hgw' : gw.apiStatus = true) :
    (processCheckout body ts rid uuid now nowN gw db).1.httpStatus = 200 ∧
    ((processCheckout body ts rid uuid now nowN gw db).1.sentToGateway.map
      fun s => s.reference) = some ("txn_" ++ toString ts ++ "_" ++ rid) ∧
    (processCheckout body ts rid uuid now nowN gw db).1.reference =
      some ("txn_" ++ toString ts ++ "_" ++ rid) ∧
    ∃ o ∈ (processCheckout body ts rid uuid now nowN gw db).2.orders,
      o.id = uuid ∧ o.payment_reference = some ("txn_" ++ toString ts ++ "_" ++ rid) := by
  rw [processCheckout_success body ts rid uuid now nowN gw db hItems hEmail hTotal hgw hgw']
  refine ⟨rfl, rfl, rfl, ?_⟩
  refine ⟨_, List.mem_map_of_mem _
    (upsertOrderByKey_mem db (checkoutOrderData body ts rid uuid now nowN)), ?_⟩
  simp [checkoutOrderData]

theorem C2_amended_fresh_reference_every_call_witness :
    (processCheckout scenarioBody 100 "r1abcdefg" "uuid-1" "t0" 5 gwInitOk
        ⟨[orderAlice], []⟩).1.httpStatus = 200 ∧
    ((processCheckout scenarioBody 100 "r1abcdefg" "uuid-1" "t0" 5 gwInitOk
        ⟨[orderAlice], []⟩).1.sentToGateway.map
      fun s => s.reference) = some ("txn_" ++ toString 100 ++ "_" ++ "r1abcdefg") ∧
    (processCheckout scenarioBody 100 "r1abcdefg" "uuid-1" "t0" 5 gwInitOk
        ⟨[orderAlice], []⟩).1.reference =
      some ("txn_" ++ toString 100 ++ "_" ++ "r1abcdefg") ∧
    ∃ o ∈ (processCheckout scenarioBody 100 "r1abcdefg" "uuid-1" "t0" 5 gwInitOk
        ⟨[orderAlice], []⟩).2.orders,
      o.id = "uuid-1" ∧
      o.payment_reference = some ("txn_" ++ toString 100 ++ "_" ++ "r1abcdefg") :=
  C2_amended_fresh_reference_every_call scenarioBody 100 "r1abcdefg" "uuid-1" "t0" 5
    gwInitOk ⟨[orderAlice], []⟩ (by decide) (by decide) (by decide) rfl rfl

/-- C3 amended: the gateway amount is 100 × the *validated* total, where the
validated total is the client-submitted total whenever it is positive — the
sum of line items plus fee is recomputed only when the client total is
missing or non-positive — and the persisted order stores that same
client-trusted total (no correction to `sum(items) + fee` happens). -/
theorem C3_amended_client_total_trusted (body : CheckoutBody) (ts : Nat)
    (rid uuid now : String) (nowN : Nat) (gw : InitGw) (db : DB)
    (hItems : body.items.length ≠ 0)
    (hEmail : isTruthyS body.customer.email = true)
    (hTotal : 0 < checkoutCalculatedTotal body)
    (hgw : gw.httpOk = true) (hgw' : gw.apiStatus = true) :
    (processCheckout body ts rid uuid now nowN gw db).1.total_amount =
      some (checkoutCalculatedTotal body) ∧
    ((processCheckout body ts rid uuid now nowN gw db).1.sentToGateway.map
      fun s => s.amount) = some (checkoutCalculatedTotal body * 100) ∧
    (∃ o ∈ (processCheckout body ts rid uuid now nowN gw db).2.orders,
      o.id = uuid ∧ o.total_amount = checkoutCalculatedTotal body ∧
      o.subtotal = cartSubtotal body.items ∧
      o.delivery_fee = truthyQ (checkoutDeliveryData body).fee 0) ∧
    (∀ t, body.total_amount = some t → 0 < t → checkoutCalculatedTotal body = t) ∧
    (body.total_amount = none →
      checkoutCalculatedTotal body =
        cartSubtotal body.items + truthyQ (checkoutDeliveryData body).fee 0) := by
  rw [processCheckout_success body ts rid uuid now nowN gw db hItems hEmail hTotal hgw hgw']
  refine ⟨rfl, rfl, ?_, ?_, ?_⟩
  · refine ⟨_, List.mem_map_of_mem _
      (upsertOrderByKey_mem db (checkoutOrderData body ts rid uuid now nowN)), ?_⟩
    simp [checkoutOrderData]
  · intro t ht hpos
    simp [checkoutCalculatedTotal, ht, not_le.mpr hpos]
  · intro h
    simp [checkoutCalculatedTotal, h]

theorem C3_amended_client_total_trusted_witness :
    (processCheckout scenarioBody 100 "r1abcdefg" "uuid-1" "t0" 5 gwInitOk
        ⟨[], []⟩).1.total_amount = some (checkoutCalculatedTotal scenarioBody) ∧
    ((processCheckout scenarioBody 100 "r1abcdefg" "uuid-1" "t0" 5 gwInitOk
        ⟨[], []⟩).1.sentToGateway.map
      fun s => s.amount) = some (checkoutCalculatedTotal scenarioBody * 100) ∧
    (∃ o ∈ (processCheckout scenarioBody 100 "r1abcdefg" "uuid-1" "t0" 5 gwInitOk
        ⟨[], []⟩).2.orders,
      o.id = "uuid-1" ∧ o.total_amount = checkoutCalculatedTotal scenarioBody ∧
      o.subtotal = cartSubtotal scenarioBody.items ∧
      o.delivery_fee = truthyQ (checkoutDeliveryData scenarioBody).fee 0) ∧
    (∀ t, scenarioBody.total_amount = some t → 0 < t →
      checkoutCalculatedTotal scenarioBody = t) ∧
    (scenarioBody.total_amount = none →
      checkoutCalculatedTotal scenarioBody =
        cartSubtotal scenarioBody.items +
          truthyQ (checkoutDeliveryData scenarioBody).fee 0) :=
  C3_amended_client_total_trusted scenarioBody 100 "r1abcdefg" "uuid-1" "t0" 5
    gwInitOk ⟨[], []⟩ (by decide) (by decide) (by decide) rfl rfl

/-- C9 amended: the checkout handler knows only two exit codes — 200 on
success and 500 for every thrown error, validation failures (empty cart,
missing email, bad total) included; no 400-class response exists. -/
theorem C9_amended_every_failure_is_500 (body : CheckoutBody) (ts : Nat)
    (rid uuid now : String) (nowN : Nat) (gw : InitGw) (db : DB) :
    (processCheckout body ts rid uuid now nowN gw db).1.httpStatus = 200 ∨
    (processCheckout body ts rid uuid now nowN gw db).1.httpStatus = 500 := by
  simp only [processCheckout]
  split_ifs <;> simp

/-- C9 counterexample: a checkout request with an empty cart is a validation
failure, which the claim says is answered with a 400-class status; the
handler's single `catch` answers it with HTTP 500 instead. -/
theorem C9_counterexample :
    emptyCartBody.items = [] ∧
    (processCheckout emptyCartBody 100 "r1abcdefg" "uuid-1" "t0" 5 gwInitOk
        ⟨[], []⟩).1.httpStatus = 500 ∧
    ¬ (400 ≤ 500 ∧ 500 < 500) := by
  exact ⟨by decide, by decide, by decide⟩


/-- C10: when the request omits `idempotency_key`, the handler stores the
generated key `checkout_<timestamp>_<random>`; two submissions whose
timestamp/random pairs differ (distinct same-length random suffixes) get
distinct keys, so each creates its own fresh order row: the store grows by
two rows and the two calls answer the two distinct fresh UUIDs. -/
theorem C10_generated_keys_create_distinct_orders (body : CheckoutBody)
    (ts1 ts2 : Nat) (rid1 rid2 uuid1 uuid2 now1 now2 : String) (n1 n2 : Nat)
    (gw1 gw2 : InitGw) (db : DB)
    (hNoKey : body.idempotency_key = none)
    (hItems : body.items.length ≠ 0)
    (hEmail : isTruthyS body.customer.email = true)
    (hTotal : 0 < checkoutCalculatedTotal body)
    (hgw1 : gw1.httpOk = true) (hgw1' : gw1.apiStatus = true)
    (hgw2 : gw2.httpOk = true) (hgw2' : gw2.apiStatus = true)
    (hrlen : rid1.length = rid2.length) (hrne : rid1 ≠ rid2)
    (hfresh1 : ∀ o ∈ db.orders,
      o.idempotency_key ≠ "checkout_" ++ toString ts1 ++ "_" ++ rid1)
    (hfresh2 : ∀ o ∈ db.orders,
      o.idempotency_key ≠ "checkout_" ++ toString ts2 ++ "_" ++ rid2) :
    (checkoutOrderData body ts1 rid1 uuid1 now1 n1).idempotency_key =
      "checkout_" ++ toString ts1 ++ "_" ++ rid1 ∧
    (checkoutOrderData body ts2 rid2 uuid2 now2 n2).idempotency_key =
      "checkout_" ++ toString ts2 ++ "_" ++ rid2 ∧
    ("checkout_" ++ toString ts1 ++ "_" ++ rid1) ≠
      ("checkout_" ++ toString ts2 ++ "_" ++ rid2) ∧
    (processCheckout body ts1 rid1 uuid1 now1 n1 gw1 db).1.orderId = some uuid1 ∧
    (processCheckout body ts2 rid2 uuid2 now2 n2 gw2
        (processCheckout body ts1 rid1 uuid1 now1 n1 gw1 db).2).1.orderId = some uuid2 ∧
    (processCheckout body ts2 rid2 uuid2 now2 n2 gw2
        (processCheckout body ts1 rid1 uuid1 now1 n1 gw1 db).2).2.orders.length =
      db.orders.length + 2 := by
  have hkey1 : (checkoutOrderData body ts1 rid1 uuid1 now1 n1).idempotency_key =
      "checkout_" ++ toString ts1 ++ "_" ++ rid1 := by
    simp [checkoutOrderData, truthyS, hNoKey]
  have hkey2 : (checkoutOrderData body ts2 rid2 uuid2 now2 n2).idempotency_key =
      "checkout_" ++ toString ts2 ++ "_" ++ rid2 := by
    simp [checkoutOrderData, truthyS, hNoKey]
  have hkne := genKey_ne ts1 ts2 rid1 rid2 hrlen hrne
  rw [processCheckout_success body ts1 rid1 uuid1 now1 n1 gw1 db
    hItems hEmail hTotal hgw1 hgw1']
  rw [processCheckout_success body ts2 rid2 uuid2 now2 n2 gw2 _
    hItems hEmail hTotal hgw2 hgw2']
  refine ⟨hkey1, hkey2, hkne, rfl, rfl, ?_⟩
  have hup1 : ((upsertOrderByKey db (checkoutOrderData body ts1 rid1 uuid1 now1 n1)).2).orders =
      db.orders ++ [checkoutOrderData body ts1 rid1 uuid1 now1 n1] :=
    upsertOrderByKey_fresh db _ (by rw [hkey1]; exact hfresh1)
  set stamp1 : OrderRow → OrderRow := fun o =>
    if o.id = uuid1 then
      { o with payment_reference := some ("txn_" ++ toString ts1 ++ "_" ++ rid1)
               payment_url := some gw1.authorization_url
               paystack_access_code := some gw1.access_code
               updated_at := now1 }
    else o with hstamp1
  have hfw : ∀ o ∈ List.map stamp1
        (db.orders ++ [checkoutOrderData body ts1 rid1 uuid1 now1 n1]),
      o.idempotency_key ≠ (checkoutOrderData body ts2 rid2 uuid2 now2 n2).idempotency_key := by
    intro o ho
    rw [hkey2]
    obtain ⟨x, hx, rfl⟩ := List.mem_map.mp ho
    have hpres : (stamp1 x).idempotency_key = x.idempotency_key := by
      simp only [hstamp1]
      split <;> rfl
    rw [hpres]
    rcases List.mem_append.mp hx with hx | hx
    · exact hfresh2 x hx
    · have hx1 : x = checkoutOrderData body ts1 rid1 uuid1 now1 n1 := by
        simpa using hx
      rw [hx1, hkey1]
      exact hkne
  simp only [hup1]
  rw [upsertOrderByKey_fresh _ _ hfw]
  simp [List.length_append, List.length_map]

theorem C10_generated_keys_create_distinct_orders_witness :
    (checkoutOrderData bodyNoKey 100 "r1abcdefg" "uuid-1" "t0" 5).idempotency_key =
      "checkout_" ++ toString 100 ++ "_" ++ "r1abcdefg" ∧
    (checkoutOrderData bodyNoKey 200 "r2abcdefg" "uuid-2" "t1" 6).idempotency_key =
      "checkout_" ++ toString 200 ++ "_" ++ "r2abcdefg" ∧
    ("checkout_" ++ toString 100 ++ "_" ++ "r1abcdefg") ≠
      ("checkout_" ++ toString 200 ++ "_" ++ "r2abcdefg") ∧
    (processCheckout bodyNoKey 100 "r1abcdefg" "uuid-1" "t0" 5 gwInitOk
        ⟨[], []⟩).1.orderId = some "uuid-1" ∧
    (processCheckout bodyNoKey 200 "r2abcdefg" "uuid-2" "t1" 6 gwInitOk
        (processCheckout bodyNoKey 100 "r1abcdefg" "uuid-1" "t0" 5 gwInitOk
          ⟨[], []⟩).2).1.orderId = some "uuid-2" ∧
    (processCheckout bodyNoKey 200 "r2abcdefg" "uuid-2" "t1" 6 gwInitOk
        (processCheckout bodyNoKey 100 "r1abcdefg" "uuid-1" "t0" 5 gwInitOk
          ⟨[], []⟩).2).2.orders.length = (⟨[], []⟩ : DB).orders.length + 2 :=
  C10_generated_keys_create_distinct_orders bodyNoKey 100 200 "r1abcdefg" "r2abcdefg"
    "uuid-1" "uuid-2" "t0" "t1" 5 6 gwInitOk gwInitOk ⟨[], []⟩
    rfl (by decide) (by decide) (by decide) rfl rfl rfl rfl (by decide) (by decide)
    (by simp) (by simp)


/-- C5 counterexample: the ledger holds a settled row
(`txn_paid_12345`, status `paid`); a verify call for which the gateway
reports the transaction as `pending` reaches the finalization upsert keyed
on `provider_reference`, which writes the gateway status unconditionally —
the stored status reverts from `paid` to `pending`, so paid is not terminal
against pending-writing upserts. -/
theorem C5_counterexample :
    txPaidRow.status = "paid" ∧
    gwVerifyPending "txn_paid_12345" 1 =
      .ok true ⟨some "pending", some 280000, some "NGN", none, none, none, none,
                TxMeta.empty⟩ ∧
    ((verifyPayment_v1 gwVerifyPending (some cfgTest) (some "txn_paid_12345") none
        "T4" 12 ⟨[], [txPaidRow]⟩).2.1.transactions.map
      (fun t => (t.provider_reference, t.status))) = [("txn_paid_12345", "pending")] := by
  exact ⟨by decide, rfl, by decide⟩

/-- C5 amended: a delayed duplicate initialization call cannot revert a
settled transaction — the v1 pending write is a plain `insert`, which fails
on the `provider_reference` uniqueness and makes initialization answer 500
with the ledger untouched; terminality is *only* this accidental guard, the
verify-path upsert enforces no terminal-state check (see the
counterexample). -/
theorem C5_amended_duplicate_init_insert_rejected (email : Option String)
    (amount : Option ℚ) (client_reference : Option String) (meta : TxMeta)
    (cfg : PaystackConfig) (gw : InitGw) (ts : Nat) (uuid now : String)
    (nowN : Nat) (db : DB)
    (hEmail : isTruthyS email = true)
    (hAmt : amount ≠ none)
    (hKobo : 100 ≤ jsRound (amount.getD 0))
    (hKey : isTruthyS cfg.secretKey = true)
    (hgw : gw.httpOk = true) (hgw' : gw.apiStatus = true)
    (hdup : (db.transactions.any fun t =>
        t.provider_reference =
          truthyS gw.reference ("txn_" ++ toString ts ++ "_" ++ uuid)) = true) :
    ((initializePayment_v1 email amount client_reference meta (some cfg) gw
        ts uuid now nowN db).2).transactions = db.transactions ∧
    (initializePayment_v1 email amount client_reference meta (some cfg) gw
        ts uuid now nowN db).1.httpStatus = 500 ∧
    (initializePayment_v1 email amount client_reference meta (some cfg) gw
        ts uuid now nowN db).1.errorMsg =
      some "Failed to record pending transaction" := by
  have hval : ¬ (¬ isTruthyS email = true ∨ amount = none) := by
    simp [hEmail, hAmt]
  have hK : ¬ (jsRound (amount.getD 0) < 100) := not_lt.mpr hKobo
  have hKey' : ¬ ¬ isTruthyS cfg.secretKey = true := by simp [hKey]
  have hgwn : ¬ ¬ gw.httpOk = true := by simp [hgw]
  have hgwn' : ¬ ¬ gw.apiStatus = true := by simp [hgw']
  have hins : ∀ (oid : Option String) (row : TxRow),
      row.provider_reference = truthyS gw.reference ("txn_" ++ toString ts ++ "_" ++ uuid) →
      insertTx (initOrderStamp db oid
        (truthyS gw.reference ("txn_" ++ toString ts ++ "_" ++ uuid)) now) row = none := by
    intro oid row hrow
    have ht : (initOrderStamp db oid
        (truthyS gw.reference ("txn_" ++ toString ts ++ "_" ++ uuid)) now).transactions =
        db.transactions := by
      cases oid <;> rfl
    simp only [insertTx, ht, hrow, hdup, if_true, ite_true]
  simp only [initializePayment_v1, hval, hK, hKey', hgwn, hgwn', if_false, if_neg,
    not_false_eq_true, ite_false, ite_true, if_true]
  rw [hins _ _ rfl]
  have ht2 : ∀ (oid : Option String),
      (initOrderStamp db oid
        (truthyS gw.reference ("txn_" ++ toString ts ++ "_" ++ uuid)) now).transactions =
      db.transactions := by
    intro oid; cases oid <;> rfl
  exact ⟨ht2 _, rfl, rfl⟩

theorem C5_amended_duplicate_init_insert_rejected_witness :
    ((initializePayment_v1 (some "a@b.c") (some 280000) none TxMeta.empty
        (some cfgTest) ⟨true, true, "u", "a", some "txn_paid_12345"⟩
        500 "uu-1" "T5" 13 ⟨[], [txPaidRow]⟩).2).transactions =
      (⟨[], [txPaidRow]⟩ : DB).transactions ∧
    (initializePayment_v1 (some "a@b.c") (some 280000) none TxMeta.empty
        (some cfgTest) ⟨true, true, "u", "a", some "txn_paid_12345"⟩
        500 "uu-1" "T5" 13 ⟨[], [txPaidRow]⟩).1.httpStatus = 500 ∧
    (initializePayment_v1 (some "a@b.c") (some 280000) none TxMeta.empty
        (some cfgTest) ⟨true, true, "u", "a", some "txn_paid_12345"⟩
        500 "uu-1" "T5" 13 ⟨[], [txPaidRow]⟩).1.errorMsg =
      some "Failed to record pending transaction" :=
  C5_amended_duplicate_init_insert_rejected (some "a@b.c") (some 280000) none
    TxMeta.empty cfgTest ⟨true, true, "u", "a", some "txn_paid_12345"⟩
    500 "uu-1" "T5" 13 ⟨[], [txPaidRow]⟩ (by decide) (by decide)
    (by norm_num [jsRound]) (by decide) rfl rfl (by decide)

/-- C8 counterexample: the gateway answers the same reference with
400 "Transaction reference not found" on every attempt; the retry loop
re-queries that same unchanged reference three times (with backoff) before
giving up — contradicting the claim that an affirmative not-found is never
answered by re-querying the gateway with the same unchanged reference. -/
theorem C8_counterexample :
    gwVerifyNotFound "txn_missing_12345" 1 =
      .httpErr 400 "Transaction reference not found" ∧
    innerNotFound "Transaction reference not found" = true ∧
    (verifyWithPaystackRetry gwVerifyNotFound "txn_missing_12345" 3).refsTried =
      ["txn_missing_12345", "txn_missing_12345", "txn_missing_12345"] ∧
    (verifyWithPaystackRetry gwVerifyNotFound "txn_missing_12345" 3).delays =
      [2000, 4000] := by
  exact ⟨rfl, by decide, by decide, by decide⟩

/-- C8 amended: network failures *are* retried with bounded exponential
backoff (at most 3 attempts, 2s then 4s, the last throw propagating), but a
gateway not-found response is treated the same way: it is retried with the
same unchanged reference up to the attempt bound, and only the final
not-found triggers the resolution cascade. -/
theorem C8_amended_retry_policy (gwNet gwNF : String → Nat → GwVerify)
    (ref body : String)
    (hlen : 10 ≤ ref.length) (hne : ref ≠ "")
    (hnet : ∀ n, gwNet ref n = .netErr)
    (hnf : ∀ n, gwNF ref n = .httpErr 400 body)
    (hbody : innerNotFound body = true) :
    (verifyWithPaystackRetry gwNet ref 3).result = .error "fetch failed" ∧
    (verifyWithPaystackRetry gwNet ref 3).refsTried = [ref, ref, ref] ∧
    (verifyWithPaystackRetry gwNet ref 3).delays = [2000, 4000] ∧
    (verifyWithPaystackRetry gwNF ref 3).result = .ok (.httpErr 400 body false) ∧
    (verifyWithPaystackRetry gwNF ref 3).refsTried = [ref, ref, ref] ∧
    (verifyWithPaystackRetry gwNF ref 3).delays = [2000, 4000] := by
  have h10 : ¬ (ref.length < 10) := not_lt.mpr hlen
  simp [verifyWithPaystackRetry, retryAux, hne, h10, hnet 1, hnet 2, hnet 3,
    hnf 1, hnf 2, hnf 3, hbody]

theorem C8_amended_retry_policy_witness :
    (verifyWithPaystackRetry gwVerifyNetErr "txn_missing_12345" 3).result =
      .error "fetch failed" ∧
    (verifyWithPaystackRetry gwVerifyNetErr "txn_missing_12345" 3).refsTried =
      ["txn_missing_12345", "txn_missing_12345", "txn_missing_12345"] ∧
    (verifyWithPaystackRetry gwVerifyNetErr "txn_missing_12345" 3).delays =
      [2000, 4000] ∧
    (verifyWithPaystackRetry gwVerifyNotFound "txn_missing_12345" 3).result =
      .ok (.httpErr 400 "Transaction reference not found" false) ∧
    (verifyWithPaystackRetry gwVerifyNotFound "txn_missing_12345" 3).refsTried =
      ["txn_missing_12345", "txn_missing_12345", "txn_missing_12345"] ∧
    (verifyWithPaystackRetry gwVerifyNotFound "txn_missing_12345" 3).delays =
      [2000, 4000] :=
  C8_amended_retry_policy gwVerifyNetErr gwVerifyNotFound "txn_missing_12345"
    "Transaction reference not found" (by decide) (by decide)
    (fun _ => rfl) (fun _ => rfl) (by decide)


/-! ### Verification-path helper lemmas -/

theorem retry3_uniform_notFound (gw : String → Nat → GwVerify) (ref nfBody : String)
    (hne : ref ≠ "") (hlen : 10 ≤ ref.length)
    (hnf : ∀ n, gw ref n = .httpErr 400 nfBody) (hin : innerNotFound nfBody = true) :
    verifyWithPaystackRetry gw ref 3 =
      ⟨.ok (.httpErr 400 nfBody false), [ref, ref, ref], [2000, 4000]⟩ := by
  have h10 := not_lt.mpr hlen
  simp [verifyWithPaystackRetry, retryAux, hne, h10, hnf 1, hnf 2, hnf 3, hin]

theorem retry_first_ok (gw : String → Nat → GwVerify) (ref : String) (m : Nat)
    (api : Bool) (gtx : GwTx)
    (hne : ref ≠ "") (hlen : 10 ≤ ref.length) (hok : gw ref 1 = .ok api gtx) :
    verifyWithPaystackRetry gw ref (m + 1) = ⟨.ok (.ok api gtx), [ref], []⟩ := by
  have h10 := not_lt.mpr hlen
  simp [verifyWithPaystackRetry, retryAux, hne, h10, hok]

theorem txnRef_ne_empty (r : String) : ("txn_" ++ r) ≠ "" := by
  intro h
  have hl := congrArg String.length h
  simp [String.length_append] at hl
  exact absurd hl.1 (by decide)

theorem txnRef_len (r : String) (h : 10 ≤ r.length) :
    ¬ (("txn_" ++ r).length < 10) := by
  simp only [String.length_append, not_lt]
  omega

/-- C6 counterexample: the supplied reference `order12345678` has no
`pay`/`txn` prefix, so the code skips strategies (a) and (b) entirely even
though the hint order id is supplied and its stored canonical reference
(`txn_real_12345`) is the one the gateway settles.  The trace shows the
gateway was queried only with the supplied reference (three retry attempts)
and its `txn_`-prefixed variant — never with the hint order's canonical
reference — and the call ends unresolved, while the claim's strategy (b)
would have succeeded. -/
theorem C6_counterexample :
    orderWithHint.payment_reference = some "txn_real_12345" ∧
    gwOracleC6 "txn_real_12345" 1 = .ok true gwTxSuccess ∧
    hasPayPfx "order12345678" = false ∧
    (verifyPayment_v1 gwOracleC6 (some cfgTest) (some "order12345678")
        (some "oid12345") "T1" 10 ⟨[orderWithHint], [txLedgerReal]⟩).2.2 =
      ["order12345678", "order12345678", "order12345678", "txn_order12345678"] ∧
    ("txn_real_12345" ∈
      (verifyPayment_v1 gwOracleC6 (some cfgTest) (some "order12345678")
        (some "oid12345") "T1" 10 ⟨[orderWithHint], [txLedgerReal]⟩).2.2) = False ∧
    (verifyPayment_v1 gwOracleC6 (some cfgTest) (some "order12345678")
        (some "oid12345") "T1" 10 ⟨[orderWithHint], [txLedgerReal]⟩).1.apiStatus =
      false ∧
    (verifyPayment_v1 gwOracleC6 (some cfgTest) (some "order12345678")
        (some "oid12345") "T1" 10 ⟨[orderWithHint], [txLedgerReal]⟩).1.httpStatus =
      200 := by
  refine ⟨rfl, rfl, by decide, by decide, ?_, by decide, by decide⟩
  simp only [eq_iff_iff, iff_false]
  decide

/-- C6 amended: the cascade as implemented — strategies (a)/(b) run only for
`pay`-prefixed references, so for any other not-found reference the first
thing attempted is (c), the `txn_`-prefixed variant, immediately after the
direct attempts; a successful resolution re-attempts the gateway lookup with
the resolved reference and the cascade stops at the first success (the trace
is exactly the three direct attempts followed by the prefixed variant, no
matter what the store holds or whether a hint order id was supplied). -/
theorem C6_amended_nonpay_reference_starts_at_prefixed
    (gw : String → Nat → GwVerify) (cfg : PaystackConfig) (db : DB)
    (hint : Option String) (ref nfBody now : String) (nowN : Nat) (gtx : GwTx)
    (hcfg : isTruthyS cfg.secretKey = true)
    (hne : ref ≠ "") (hlen : 10 ≤ ref.length)
    (hpay : hasPayPfx ref = false) (htxn : hasTxnPfx ref = false)
    (hin : innerNotFound nfBody = true) (hout : outerNotFound nfBody = true)
    (hnf : ∀ n, gw ref n = .httpErr 400 nfBody)
    (hok : gw ("txn_" ++ ref) 1 = .ok true gtx) :
    (verifyPayment_v1 gw (some cfg) (some ref) hint now nowN db).2.2 =
      [ref, ref, ref, "txn_" ++ ref] ∧
    (verifyPayment_v1 gw (some cfg) (some ref) hint now nowN db).1.httpStatus = 200 ∧
    (verifyPayment_v1 gw (some cfg) (some ref) hint now nowN db).1.apiStatus = true ∧
    (verifyPayment_v1 gw (some cfg) (some ref) hint now nowN db).1.dataStatus =
      gtx.status := by
  have hvwp : verifyWithPaystack gw ("txn_" ++ ref) =
      ⟨.ok (.ok true gtx), ["txn_" ++ ref], []⟩ := by
    have h4 : ("txn_" : String).length = 4 := by decide
    simp [verifyWithPaystack, verifyWithPaystackRetry, retryAux, txnRef_ne_empty ref,
      hok, h4]
    omega
  simp [verifyPayment_v1, resolvePhase, osNull, hne, hcfg,
    retry3_uniform_notFound gw ref nfBody hne hlen hnf hin, hout, hpay,
    stageB, stageB0, stageBLookup, htxn, cascadeCall, hvwp, RetryResp.isOk]



theorem C6_amended_nonpay_reference_starts_at_prefixed_witness :
    (verifyPayment_v1 gwOraclePrefixed (some cfgTest) (some "order12345678") none
        "T1" 10 ⟨[], []⟩).2.2 =
      ["order12345678", "order12345678", "order12345678", "txn_" ++ "order12345678"] ∧
    (verifyPayment_v1 gwOraclePrefixed (some cfgTest) (some "order12345678") none
        "T1" 10 ⟨[], []⟩).1.httpStatus = 200 ∧
    (verifyPayment_v1 gwOraclePrefixed (some cfgTest) (some "order12345678") none
        "T1" 10 ⟨[], []⟩).1.apiStatus = true ∧
    (verifyPayment_v1 gwOraclePrefixed (some cfgTest) (some "order12345678") none
        "T1" 10 ⟨[], []⟩).1.dataStatus = gwTxSuccess.status :=
  C6_amended_nonpay_reference_starts_at_prefixed gwOraclePrefixed cfgTest ⟨[], []⟩
    none "order12345678" "Transaction reference not found" "T1" 10 gwTxSuccess
    (by decide) (by decide) (by decide) (by decide) (by decide) (by decide)
    (by decide) (fun _ => rfl) rfl


/-! ### C7: under a gateway that never finds any reference, every cascade
call leaves the response at the original 400 not-found value. -/

theorem cascadeCall_resp_uniform (gw : String → Nat → GwVerify) (nfBody : String)
    (hgw : ∀ r n, gw r n = .httpErr 400 nfBody) (c : String) (st : Reso)
    (hst : st.resp = .httpErr 400 nfBody false) :
    ((cascadeCall gw c st).1).resp = .httpErr 400 nfBody false := by
  unfold cascadeCall verifyWithPaystack verifyWithPaystackRetry
  by_cases h1 : c = ""
  · simp [h1, hst]
  · by_cases h2 : c.length < 10
    · simp [h1, h2, hst]
    · simp [h1, h2, retryAux, hgw c 1]

theorem stageA_resp_uniform (gw : String → Nat → GwVerify) (nfBody : String)
    (hgw : ∀ r n, gw r n = .httpErr 400 nfBody) (db : DB) (hint : Option String)
    (reference : String) (st : Reso)
    (hst : st.resp = .httpErr 400 nfBody false) :
    (stageA gw db hint reference st).resp = .httpErr 400 nfBody false := by
  unfold stageA
  repeat' split
  all_goals
    first
      | exact hst
      | exact cascadeCall_resp_uniform gw nfBody hgw _ _ hst

theorem stageBLookup_resp_uniform (gw : String → Nat → GwVerify) (nfBody : String)
    (hgw : ∀ r n, gw r n = .httpErr 400 nfBody) (cand : Option String)
    (strat : String) (stAb : Reso × Bool)
    (hst : stAb.1.resp = .httpErr 400 nfBody false) :
    ((stageBLookup gw cand strat stAb).1).resp = .httpErr 400 nfBody false := by
  unfold stageBLookup
  repeat' split
  all_goals
    first
      | exact hst
      | exact cascadeCall_resp_uniform gw nfBody hgw _ _ hst

theorem stageB0_resp_uniform (gw : String → Nat → GwVerify) (nfBody : String)
    (hgw : ∀ r n, gw r n = .httpErr 400 nfBody) (reference : String) (st : Reso)
    (hst : st.resp = .httpErr 400 nfBody false) :
    ((stageB0 gw reference st).1).resp = .httpErr 400 nfBody false := by
  have hc := cascadeCall_resp_uniform gw nfBody hgw ("txn_" ++ reference)
    { st with strategy := some "prefix_added" } hst
  unfold stageB0
  by_cases h : hasTxnPfx reference
  · simp [h, hst]
  · rcases hcc : cascadeCall gw ("txn_" ++ reference)
        { st with strategy := some "prefix_added" } with ⟨st', ab⟩
    rw [hcc] at hc
    simp only [h, Bool.false_eq_true, not_false_eq_true, if_true, ite_true, hcc]
    cases ab
    · simp at hc
      simp [hc, RetryResp.isOk]
    · simp at hc
      simp [hc]

theorem stageB_resp_uniform (gw : String → Nat → GwVerify) (nfBody : String)
    (hgw : ∀ r n, gw r n = .httpErr 400 nfBody) (db : DB) (reference : String)
    (st : Reso) (hst : st.resp = .httpErr 400 nfBody false) :
    (stageB gw db reference st).resp = .httpErr 400 nfBody false := by
  unfold stageB
  exact stageBLookup_resp_uniform gw nfBody hgw _ _ _
    (stageBLookup_resp_uniform gw nfBody hgw _ _ _
      (stageBLookup_resp_uniform gw nfBody hgw _ _ _
        (stageBLookup_resp_uniform gw nfBody hgw _ _ _
          (stageB0_resp_uniform gw nfBody hgw reference st hst))))


theorem resolvePhase_resp_uniform (gw : String → Nat → GwVerify) (nfBody : String)
    (hgw : ∀ r n, gw r n = .httpErr 400 nfBody) (db : DB) (hint : Option String)
    (ref : String) (st0 : Reso) (hst : st0.resp = .httpErr 400 nfBody false) :
    (resolvePhase gw db hint ref nfBody st0).resp = .httpErr 400 nfBody false := by
  simp only [resolvePhase]
  split
  · have hA : (stageA gw db (osNull hint) ref st0).resp = .httpErr 400 nfBody false :=
      stageA_resp_uniform gw nfBody hgw db (osNull hint) ref st0 hst
    split
    · exact stageB_resp_uniform gw nfBody hgw db ref _ hA
    · exact hA
  · split
    · exact stageB_resp_uniform gw nfBody hgw db ref _ hst
    · exact hst

/-- C7: when the gateway finds no reference at all — so the direct lookup
and every re-attempted resolution lookup keep failing and the strategies
exhaust — the verify handler answers HTTP **200** with a structured
`status: false` payload whose diagnostics name the provided reference, the
mapping strategy that was in play and the provider status, and the store is
left untouched: the exhausted case is non-fatal, exactly as claimed. -/
theorem C7_exhausted_resolution_is_nonfatal (gw : String → Nat → GwVerify)
    (cfg : PaystackConfig) (db : DB) (hint : Option String)
    (ref nfBody now : String) (nowN : Nat)
    (hcfg : isTruthyS cfg.secretKey = true)
    (hne : ref ≠ "") (hlen : 10 ≤ ref.length)
    (hin : innerNotFound nfBody = true) (_hout : outerNotFound nfBody = true)
    (hgw : ∀ r n, gw r n = .httpErr 400 nfBody) :
    (verifyPayment_v1 gw (some cfg) (some ref) hint now nowN db).1.httpStatus = 200 ∧
    (verifyPayment_v1 gw (some cfg) (some ref) hint now nowN db).1.apiStatus = false ∧
    (∃ d, (verifyPayment_v1 gw (some cfg) (some ref) hint now nowN db).1.diagnostics =
        some d ∧ d.provided_reference = ref ∧ d.provider_status = 400) ∧
    (verifyPayment_v1 gw (some cfg) (some ref) hint now nowN db).2.1 = db := by
  have hretry := retry3_uniform_notFound gw ref nfBody hne hlen (fun n => hgw ref n) hin
  have hres := resolvePhase_resp_uniform gw nfBody hgw db hint ref
    ⟨.httpErr 400 nfBody false, ref, none, [ref, ref, ref]⟩ rfl
  simp only [verifyPayment_v1, osNull, hne, hcfg, hretry, if_neg, if_true,
    not_false_eq_true, ite_true, ite_false, Bool.not_true, if_false, Bool.false_eq_true]
  rw [hres]
  exact ⟨rfl, rfl, ⟨_, rfl, rfl, rfl⟩, rfl⟩


theorem C7_exhausted_resolution_is_nonfatal_witness :
    (verifyPayment_v1 gwVerifyNotFound (some cfgTest) (some "pay_abc123456")
        (some "oid12345") "T1" 10 ⟨[orderWithHint], [txLedgerReal]⟩).1.httpStatus = 200 ∧
    (verifyPayment_v1 gwVerifyNotFound (some cfgTest) (some "pay_abc123456")
        (some "oid12345") "T1" 10 ⟨[orderWithHint], [txLedgerReal]⟩).1.apiStatus = false ∧
    (∃ d, (verifyPayment_v1 gwVerifyNotFound (some cfgTest) (some "pay_abc123456")
        (some "oid12345") "T1" 10 ⟨[orderWithHint], [txLedgerReal]⟩).1.diagnostics =
        some d ∧ d.provided_reference = "pay_abc123456" ∧ d.provider_status = 400) ∧
    (verifyPayment_v1 gwVerifyNotFound (some cfgTest) (some "pay_abc123456")
        (some "oid12345") "T1" 10 ⟨[orderWithHint], [txLedgerReal]⟩).2.1 =
      (⟨[orderWithHint], [txLedgerReal]⟩ : DB) :=
  C7_exhausted_resolution_is_nonfatal gwVerifyNotFound cfgTest
    ⟨[orderWithHint], [txLedgerReal]⟩ (some "oid12345") "pay_abc123456"
    "Transaction reference not found" "T1" 10 (by decide) (by decide) (by decide)
    (by decide) (by decide) (fun _ _ => rfl)


/-- C4 counterexample: the v2 `verifyPayment` (the second implementation in
the same source file, cited by the claim at lines 996–1037) handles a
gateway-settled payment by setting the order's `status` to `confirmed` —
but it never sets `payment_status` to `paid`: after a successful verify of
an order that the gateway reports settled, `payment_status` is still
`pending`, refuting "calling verify ... transitions the order's
payment_status to paid". -/
theorem C4_counterexample :
    orderWithHint.payment_status = "pending" ∧
    orderWithHint.payment_reference = some "txn_real_12345" ∧
    gwVerifySuccess "txn_real_12345" 1 = .ok true gwTxSuccess ∧
    gwTxSuccess.status = some "success" ∧
    (verifyPayment_v2 gwVerifySuccess true (some "txn_real_12345") "T3"
        ⟨[orderWithHint], []⟩).1.apiStatus = true ∧
    (verifyPayment_v2 gwVerifySuccess true (some "txn_real_12345") "T3"
        ⟨[orderWithHint], []⟩).1.dataStatus = some "success" ∧
    (verifyPayment_v2 gwVerifySuccess true (some "txn_real_12345") "T3"
        ⟨[orderWithHint], []⟩).2.orders.map
      (fun x => (x.payment_status, x.status)) = [("pending", "confirmed")] := by
  exact ⟨by decide, rfl, rfl, rfl, by decide, by decide, by decide⟩

/-- C4 amended, proved of the v1 implementation with the
`handle_successful_payment` finalization modelled from the spec: for an
order holding the canonical reference, the first verify of a
gateway-settled payment transitions it to `payment_status = paid`,
`status = confirmed`; a second verify recomputes the same end state — the
order's status fields are unchanged, so the transition is applied exactly
once — and still reports the gateway success (`status: true`,
`data.status = success`, order summary `payment_status = paid`). -/
theorem C4_amended_v1_paid_transition_applied_once
    (gw : String → Nat → GwVerify) (cfg : PaystackConfig) (o : OrderRow)
    (gtx : GwTx) (r now1 now2 : String) (n1 n2 : Nat) (hint : Option String)
    (hcfg : isTruthyS cfg.secretKey = true)
    (hne : r ≠ "") (hlen : 10 ≤ r.length)
    (hok : ∀ n, gw r n = .ok true gtx)
    (hst : gtx.status = some "success")
    (hmeta : gtx.metadata = TxMeta.empty)
    (href : o.payment_reference = some r)
    (hps : o.payment_status = "pending") :
    ((verifyPayment_v1 gw (some cfg) (some r) hint now1 n1 ⟨[o], []⟩).2.1.orders.map
      (fun x => (x.payment_status, x.status))) = [("paid", "confirmed")] ∧
    (verifyPayment_v1 gw (some cfg) (some r) hint now1 n1 ⟨[o], []⟩).1.apiStatus =
      true ∧
    (verifyPayment_v1 gw (some cfg) (some r) hint now1 n1 ⟨[o], []⟩).1.dataStatus =
      some "success" ∧
    ((verifyPayment_v1 gw (some cfg) (some r) hint now2 n2
        (verifyPayment_v1 gw (some cfg) (some r) hint now1 n1
          ⟨[o], []⟩).2.1).2.1.orders.map
      (fun x => (x.payment_status, x.status))) = [("paid", "confirmed")] ∧
    (verifyPayment_v1 gw (some cfg) (some r) hint now2 n2
        (verifyPayment_v1 gw (some cfg) (some r) hint now1 n1
          ⟨[o], []⟩).2.1).1.apiStatus = true ∧
    (verifyPayment_v1 gw (some cfg) (some r) hint now2 n2
        (verifyPayment_v1 gw (some cfg) (some r) hint now1 n1
          ⟨[o], []⟩).2.1).1.dataStatus = some "success" ∧
    (verifyPayment_v1 gw (some cfg) (some r) hint now2 n2
        (verifyPayment_v1 gw (some cfg) (some r) hint now1 n1
          ⟨[o], []⟩).2.1).1.dataPaymentStatus = some "paid" := by
  have hretry := retry_first_ok gw r 2 true gtx hne hlen (hok 1)
  simp only [verifyPayment_v1, osNull, hne, hcfg, hretry, if_neg, if_true,
    not_false_eq_true, ite_true, ite_false, Bool.not_true, if_false, Bool.false_eq_true]
  simp [finalizeVerify, hmeta, href, hst, hps, handle_successful_payment, TxMeta.empty,
    orS, osNull, truthyS, dbLatest]

theorem C4_amended_v1_paid_transition_applied_once_witness :
    ((verifyPayment_v1 gwVerifySuccess (some cfgTest) (some "txn_real_12345") none
        "T1" 10 ⟨[orderWithHint], []⟩).2.1.orders.map
      (fun x => (x.payment_status, x.status))) = [("paid", "confirmed")] ∧
    (verifyPayment_v1 gwVerifySuccess (some cfgTest) (some "txn_real_12345") none
        "T1" 10 ⟨[orderWithHint], []⟩).1.apiStatus = true ∧
    (verifyPayment_v1 gwVerifySuccess (some cfgTest) (some "txn_real_12345") none
        "T1" 10 ⟨[orderWithHint], []⟩).1.dataStatus = some "success" ∧
    ((verifyPayment_v1 gwVerifySuccess (some cfgTest) (some "txn_real_12345") none
        "T2" 11 (verifyPayment_v1 gwVerifySuccess (some cfgTest)
          (some "txn_real_12345") none "T1" 10 ⟨[orderWithHint], []⟩).2.1).2.1.orders.map
      (fun x => (x.payment_status, x.status))) = [("paid", "confirmed")] ∧
    (verifyPayment_v1 gwVerifySuccess (some cfgTest) (some "txn_real_12345") none
        "T2" 11 (verifyPayment_v1 gwVerifySuccess (some cfgTest)
          (some "txn_real_12345") none "T1" 10
          ⟨[orderWithHint], []⟩).2.1).1.apiStatus = true ∧
    (verifyPayment_v1 gwVerifySuccess (some cfgTest) (some "txn_real_12345") none
        "T2" 11 (verifyPayment_v1 gwVerifySuccess (some cfgTest)
          (some "txn_real_12345") none "T1" 10
          ⟨[orderWithHint], []⟩).2.1).1.dataStatus = some "success" ∧
    (verifyPayment_v1 gwVerifySuccess (some cfgTest) (some "txn_real_12345") none
        "T2" 11 (verifyPayment_v1 gwVerifySuccess (some cfgTest)
          (some "txn_real_12345") none "T1" 10
          ⟨[orderWithHint], []⟩).2.1).1.dataPaymentStatus = some "paid" :=
  C4_amended_v1_paid_transition_applied_once gwVerifySuccess cfgTest orderWithHint
    gwTxSuccess "txn_real_12345" "T1" "T2" 10 11 none (by decide) (by decide)
    (by decide) (fun _ => rfl) rfl rfl rfl rfl

end StartersZ
